import Mathlib

/-!
Shallow embedding of the AI request-orchestration layer of the
deskcurator repository: the retry utility (src/utils/retry.ts), the
token-bucket rate limiter (src/utils/rateLimiter.ts), the token usage
tracker (src/types/ai.types.ts) and the orchestrating AI service
(src/services/ai.service.ts) with its provider adapters.  JavaScript
numbers are modelled as rationals, runtime values that the code
inspects dynamically as `JsVal`, and thrown errors as `JsError`.
-/

/-- A JavaScript runtime value, as far as the embedded code inspects
one: a string, a number, a boolean or `undefined`. -/
inductive JsVal where
  | str (s : String)
  | num (q : ℚ)
  | bool (b : Bool)
  | jsUndefined
  deriving DecidableEq, Repr

/-- JavaScript truthiness: `undefined`, `0`, the empty string and
`false` are falsy; every other modelled value is truthy. -/
def JsVal.truthy : JsVal → Bool
  | .str s => !s.isEmpty
  | .num q => decide (q ≠ 0)
  | .bool b => b
  | .jsUndefined => false

/-- The runtime fields of the `AIServiceError` class declared in
src/types/ai.types.ts (lines 267-284): `message`, `type`, `provider`,
`statusCode`, `retryAfter`, `originalError`.  The class declares no
`retryable` property.  Field values are kept as raw `JsVal`s because
callers in this repository pass loosely-typed arguments positionally
(src/services/anthropic.provider.ts passes the string 'NOT_IMPLEMENTED'
as `type`, the number 501 as `provider` and `false` as `statusCode`). -/
structure AIServiceErrorData where
  message : String
  errType : JsVal
  provider : JsVal := .jsUndefined
  statusCode : JsVal := .jsUndefined
  retryAfter : JsVal := .jsUndefined
  originalError : JsVal := .jsUndefined
  deriving DecidableEq, Repr

/-- Dynamic property lookup on an `AIServiceError` object: the declared
fields by name, `undefined` for any other property name — in particular
for `retryable`, which the class does not declare. -/
def AIServiceErrorData.getProp (e : AIServiceErrorData) : String → JsVal
  | "message" => .str e.message
  | "type" => e.errType
  | "provider" => e.provider
  | "statusCode" => e.statusCode
  | "retryAfter" => e.retryAfter
  | "originalError" => e.originalError
  | _ => .jsUndefined

/-- A thrown JavaScript error, as the embedded code distinguishes them:
an `AIServiceError` instance, or any other error (such as the plain
`Error` thrown by `AIService.createProvider`). -/
inductive JsError where
  | aiService (e : AIServiceErrorData)
  | generic (message : String)
  deriving DecidableEq, Repr

/-- The `TokenUsage` value of src/types/ai.types.ts: prompt, completion
and total token counts with an optional estimated cost. -/
structure TokenUsage where
  promptTokens : ℚ
  completionTokens : ℚ
  totalTokens : ℚ
  estimatedCost : Option ℚ := none
  deriving DecidableEq, Repr

/-- The `RetryConfig` of src/utils/retry.ts: `maxDelay` defaults to
30000 ms and `shouldRetry` to the default predicate reading
`error.retryable`. -/
structure RetryConfig where
  maxRetries : ℕ
  baseDelay : ℚ
  maxDelay : ℚ := 30000
  shouldRetry : Option (JsError → Bool) := none

/-- The default `shouldRetry` of `retryWithBackoff` (src/utils/retry.ts
lines 23-28): for an `AIServiceError` instance it returns the value of
`error.retryable`; for any other error, `false`.  Because the
`AIServiceError` class of src/types/ai.types.ts declares no `retryable`
property, that read yields `undefined`, which is falsy. -/
def defaultShouldRetry : JsError → Bool
  | .aiService e => (e.getProp "retryable").truthy
  | .generic _ => false

/-- One pass of the retry loop of `retryWithBackoff` (src/utils/retry.ts
lines 33-55), with `fuel = maxRetries - attempt`: invoke the operation
at the current attempt index; on success return its value; on failure
rethrow when the attempt count has reached `maxRetries` (`fuel = 0`) or
the predicate rejects the error, and otherwise sleep
`min(baseDelay * 2 ^ attempt, maxDelay)` milliseconds and loop.  The
result pairs the final outcome with the list of delays slept, in
order. -/
def retryAux (fn : ℕ → Except JsError α) (pred : JsError → Bool)
    (base maxD : ℚ) : ℕ → ℕ → Except JsError α × List ℚ
  | 0, attempt => (fn attempt, [])
  | fuel + 1, attempt =>
    match fn attempt with
    | .ok v => (.ok v, [])
    | .error e =>
      if pred e then
        let d := min (base * 2 ^ attempt) maxD
        let r := retryAux fn pred base maxD fuel (attempt + 1)
        (r.1, d :: r.2)
      else (.error e, [])

/-- `retryWithBackoff(fn, config)` of src/utils/retry.ts: the operation
is modelled as a function from the 0-based attempt index to that
invocation's outcome.  Returns the final outcome together with the list
of backoff delays slept between attempts. -/
def retryWithBackoff (fn : ℕ → Except JsError α) (cfg : RetryConfig) :
    Except JsError α × List ℚ :=
  retryAux fn (cfg.shouldRetry.getD defaultShouldRetry) cfg.baseDelay
    cfg.maxDelay cfg.maxRetries 0

/-- The state of the `RateLimiter` of src/utils/rateLimiter.ts: the
current (possibly fractional) token balance, the timestamp of the last
refill, the bucket capacity and the refill rate in tokens per
millisecond. -/
structure RateLimiter where
  tokens : ℚ
  lastRefill : ℚ
  maxTokens : ℚ
  refillRate : ℚ
  deriving DecidableEq, Repr

/-- The `RateLimiter` constructor (lines 12-17): a full bucket of
`requestsPerMinute` tokens refilling at `requestsPerMinute / 60000`
tokens per millisecond; `now` stands for `Date.now()`. -/
def RateLimiter.create (requestsPerMinute : ℕ) (now : ℚ) : RateLimiter :=
  { tokens := requestsPerMinute
    lastRefill := now
    maxTokens := requestsPerMinute
    refillRate := requestsPerMinute / 60000 }

/-- `refill()` (lines 19-26): add `elapsed * refillRate` tokens, capped
at `maxTokens`, and advance the refill timestamp to `now`. -/
def RateLimiter.refill (now : ℚ) (s : RateLimiter) : RateLimiter :=
  { s with
    tokens := min s.maxTokens (s.tokens + (now - s.lastRefill) * s.refillRate)
    lastRefill := now }

/-- The synchronous head of `acquire()` (lines 28-36): refill, and when
at least one token is available debit it and return (`none` means the
call completed without suspending).  Otherwise the call suspends and
`some w` carries the wake-up time `now + (1 - tokens) / refillRate` at
which its pending `setTimeout` fires. -/
def RateLimiter.acquireStart (now : ℚ) (s : RateLimiter) :
    RateLimiter × Option ℚ :=
  if 1 ≤ (s.refill now).tokens then
    ({ s.refill now with tokens := (s.refill now).tokens - 1 }, none)
  else
    (s.refill now,
      some (now + (1 - (s.refill now).tokens) / (s.refill now).refillRate))

/-- The resumption of a suspended `acquire()` (lines 38-42): after the
wait, refill once more and debit one token unconditionally — even when
the second refill produced less than one full token. -/
def RateLimiter.acquireResume (now : ℚ) (s : RateLimiter) : RateLimiter :=
  { s.refill now with tokens := (s.refill now).tokens - 1 }

/-- `getAvailableTokens()` (lines 44-47): refill, then report the
integer floor of the balance.  The refilled state is returned
alongside the report. -/
def RateLimiter.getAvailableTokens (now : ℚ) (s : RateLimiter) :
    ℤ × RateLimiter :=
  (⌊(s.refill now).tokens⌋, s.refill now)

/-- A sequential (non-overlapping) `acquire()` call: when the
synchronous head suspends, the caller sleeps exactly until the computed
wake-up time with no other operation interleaved, then runs the
resumption. -/
def RateLimiter.acquireSeq (now : ℚ) (s : RateLimiter) : RateLimiter :=
  match s.acquireStart now with
  | (s1, none) => s1
  | (s1, some wake) => s1.acquireResume wake

/-- `k` `acquire()` calls all issued at the same timestamp `now` (no
elapsed time between them), taking the synchronous head of each call. -/
def RateLimiter.acquireN (now : ℚ) (s : RateLimiter) : ℕ → RateLimiter
  | 0 => s
  | k + 1 => ((s.acquireN now k).acquireStart now).1

/-- The rate-limiter states reachable from a fresh limiter by any
interleaving of the atomic steps of `acquire()` (head and resumption, at
arbitrary times) and of `getAvailableTokens()` observations. -/
inductive RateLimiter.Reach : RateLimiter → Prop where
  | create (requestsPerMinute : ℕ) (now : ℚ) :
      Reach (RateLimiter.create requestsPerMinute now)
  | start (s : RateLimiter) (now : ℚ) (h : Reach s) :
      Reach (s.acquireStart now).1
  | resume (s : RateLimiter) (now : ℚ) (h : Reach s) :
      Reach (s.acquireResume now)
  | observe (s : RateLimiter) (now : ℚ) (h : Reach s) :
      Reach (s.refill now)

/-- The states reachable when calls never overlap: every `acquire()` or
`getAvailableTokens()` call starts no earlier than the limiter's last
refill timestamp (time is monotone, and a suspended `acquire()`
finishes its wait before the next call begins), from a fresh limiter
configured with at least one request per minute. -/
inductive RateLimiter.SeqReach : RateLimiter → Prop where
  | create (requestsPerMinute : ℕ) (now : ℚ) (h : 1 ≤ requestsPerMinute) :
      SeqReach (RateLimiter.create requestsPerMinute now)
  | acquire (s : RateLimiter) (now : ℚ) (h : SeqReach s)
      (ht : s.lastRefill ≤ now) : SeqReach (s.acquireSeq now)
  | observe (s : RateLimiter) (now : ℚ) (h : SeqReach s)
      (ht : s.lastRefill ≤ now) : SeqReach (s.refill now)

/-- The provider identifiers of the `AIProvider` enum of
src/types/ai.types.ts (lines 11-14). -/
inductive AIProviderId where
  | gemini
  | anthropic
  deriving DecidableEq, Repr

/-- `Object.values(AIProvider)`, in declaration order. -/
def AIProviderId.all : List AIProviderId := [.gemini, .anthropic]

/-- The zero `TokenUsage` accumulator the tracker installs for every
provider, with `estimatedCost` initialised to 0. -/
def TokenUsage.zero : TokenUsage :=
  { promptTokens := 0, completionTokens := 0, totalTokens := 0,
    estimatedCost := some 0 }

/-- The state of the `TokenUsageTracker` class of src/types/ai.types.ts
(lines 59-190): one usage accumulator and one request counter per known
provider, plus the tracker start time. -/
structure TokenUsageTracker where
  usage : AIProviderId → TokenUsage
  requestCount : AIProviderId → ℕ
  startTime : ℚ

/-- The `TokenUsageTracker` constructor (lines 64-78): every provider
pre-initialised to the zero accumulator and a zero request count. -/
def TokenUsageTracker.create (now : ℚ) : TokenUsageTracker :=
  { usage := fun _ => TokenUsage.zero
    requestCount := fun _ => 0
    startTime := now }

/-- `track(provider, usage)` (lines 85-96): add the usage fields
component-wise into the provider's accumulator (absent costs counting
as 0) and increment its request counter. -/
def TokenUsageTracker.track (p : AIProviderId) (u : TokenUsage)
    (t : TokenUsageTracker) : TokenUsageTracker :=
  { t with
    usage := fun q =>
      if q = p then
        { promptTokens := (t.usage p).promptTokens + u.promptTokens
          completionTokens := (t.usage p).completionTokens + u.completionTokens
          totalTokens := (t.usage p).totalTokens + u.totalTokens
          estimatedCost := some ((t.usage p).estimatedCost.getD 0
            + u.estimatedCost.getD 0) }
      else t.usage q
    requestCount := fun q =>
      if q = p then t.requestCount p + 1 else t.requestCount q }

/-- `getUsage(provider)` (lines 101-103): the provider's accumulator as
a value (a snapshot — the embedding is purely functional, so no live
reference can leak). -/
def TokenUsageTracker.getUsage (p : AIProviderId) (t : TokenUsageTracker) :
    TokenUsage :=
  t.usage p

/-- The component-wise addition `getTotalUsage` performs as it folds
over the per-provider accumulators (costs counted with a default
of 0). -/
def TokenUsage.addTo (total u : TokenUsage) : TokenUsage :=
  { promptTokens := total.promptTokens + u.promptTokens
    completionTokens := total.completionTokens + u.completionTokens
    totalTokens := total.totalTokens + u.totalTokens
    estimatedCost := some (total.estimatedCost.getD 0 + u.estimatedCost.getD 0) }

/-- `getTotalUsage()` (lines 108-124): start from the zero total and
add every known provider's accumulator. -/
def TokenUsageTracker.getTotalUsage (t : TokenUsageTracker) : TokenUsage :=
  AIProviderId.all.foldl (fun total p => total.addTo (t.usage p)) TokenUsage.zero

/-- `getRequestCount(provider)` (lines 129-131). -/
def TokenUsageTracker.getRequestCount (p : AIProviderId)
    (t : TokenUsageTracker) : ℕ :=
  t.requestCount p

/-- `reset()` (lines 152-167): clear every provider's accumulator and
request counter back to zero and restart the uptime clock at `now`. -/
def TokenUsageTracker.reset (now : ℚ) (_t : TokenUsageTracker) :
    TokenUsageTracker :=
  { usage := fun _ => TokenUsage.zero
    requestCount := fun _ => 0
    startTime := now }

/-- A message of a completion request, as src/services/ai.service.ts
builds them: a role string and the text content. -/
structure AIMessage where
  role : String
  content : String
  deriving DecidableEq, Repr

/-- The fields of an `AICompletionRequest` that the orchestrator and the
provider adapters of this repository read. -/
structure AICompletionRequest where
  messages : List AIMessage
  maxTokens : Option ℚ := none
  temperature : Option ℚ := none
  stream : Bool := false
  deriving DecidableEq, Repr

/-- The fields of an `AICompletionResponse` that the orchestrator
reads: the generated text and the optional token usage. -/
structure AICompletionResponse where
  content : String
  usage : Option TokenUsage := none
  model : String := ""
  deriving DecidableEq, Repr

/-- An `AIStreamChunk` of src/types/ai.types.ts: a content fragment,
the completion flag, and usage (meaningful only on the terminal
chunk). -/
structure AIStreamChunk where
  content : String
  isComplete : Bool
  usage : Option TokenUsage := none
  deriving DecidableEq, Repr

/-- The provider adapter selected by `AIService.createProvider`. -/
inductive ProviderKind where
  | anthropic
  | gemini
  deriving DecidableEq, Repr

/-- `AIService.createProvider` (src/services/ai.service.ts lines
50-62): the two known provider names construct the matching adapter;
any other name throws the plain `Error` `Unknown provider: <name>`
before any adapter is constructed. -/
def createProvider (providerName : String) : Except JsError ProviderKind :=
  if providerName = "anthropic" then .ok .anthropic
  else if providerName = "gemini" then .ok .gemini
  else .error (.generic ("Unknown provider: " ++ providerName))

/-- The orchestrator's token-usage accumulator, as initialised in the
`AIService` constructor (src/services/ai.service.ts lines 40-46). -/
structure ServiceTokenUsage where
  promptTokens : ℚ
  completionTokens : ℚ
  totalTokens : ℚ
  requestCount : ℕ
  lastReset : ℚ
  deriving DecidableEq, Repr

/-- `AIService.updateTokenUsage` (lines 205-216): when usage is
present, add its three token fields into the accumulators; in every
case increment the request counter by one. -/
def updateTokenUsage (t : ServiceTokenUsage) (usage : Option TokenUsage) :
    ServiceTokenUsage :=
  let t1 := match usage with
    | some u =>
      { t with
        promptTokens := t.promptTokens + u.promptTokens
        completionTokens := t.completionTokens + u.completionTokens
        totalTokens := t.totalTokens + u.totalTokens }
    | none => t
  { t1 with requestCount := t1.requestCount + 1 }

/-- `AIService.complete` (src/services/ai.service.ts lines 67-86) after
its rate-limit acquisition: run the provider call through
`retryWithBackoff` with the configured retry count and base delay (no
`shouldRetry` supplied, so the default applies) and, on success, feed
the response's usage into the accumulator.  Returns the outcome, the
accumulator afterwards and the backoff delays slept. -/
def serviceComplete (providerCall : ℕ → Except JsError AICompletionResponse)
    (maxRetries : ℕ) (retryDelay : ℚ) (t : ServiceTokenUsage) :
    Except JsError AICompletionResponse × ServiceTokenUsage × List ℚ :=
  let r := retryWithBackoff providerCall
    { maxRetries := maxRetries, baseDelay := retryDelay }
  match r.1 with
  | .ok resp => (.ok resp, updateTokenUsage t resp.usage, r.2)
  | .error e => (.error e, t, r.2)

/-- The chunk handler `AIService.streamComplete` wraps around the
caller's `onChunk` (src/services/ai.service.ts lines 99-105): when a
chunk is terminal and carries usage, feed that usage into the
accumulator; every chunk is then forwarded to the caller. -/
def streamChunkTrack (t : ServiceTokenUsage) (c : AIStreamChunk) :
    ServiceTokenUsage :=
  if c.isComplete && c.usage.isSome then updateTokenUsage t c.usage else t

/-- The `onChunk` accumulation of `AIService.ask` in streaming mode
(lines 139-144): append every non-terminal chunk's content to the
assembled response, skipping the terminal chunk. -/
def askChunkText (s : String) (c : AIStreamChunk) : String :=
  if c.isComplete then s else s ++ c.content

/-- `AIService.ask(prompt, systemPrompt?, {stream: true})` run against a
provider adapter that emits the given finite chunk sequence in order
and then returns successfully: the assembled text together with the
orchestrator's usage accumulator after the call. -/
def askStreaming (chunks : List AIStreamChunk) (t : ServiceTokenUsage) :
    String × ServiceTokenUsage :=
  chunks.foldl (fun acc c => (askChunkText acc.1 c, streamChunkTrack acc.2 c))
    ("", t)

/-- The error both methods of `AnthropicProvider` throw
(src/services/anthropic.provider.ts): `new AIServiceError('Anthropic
provider not yet implemented', 'NOT_IMPLEMENTED', 501, false)`.  The
four arguments land positionally on `message`, `type`, `provider` and
`statusCode` of the class of src/types/ai.types.ts. -/
def anthropicNotImplemented : JsError :=
  .aiService
    { message := "Anthropic provider not yet implemented"
      errType := .str "NOT_IMPLEMENTED"
      provider := .num 501
      statusCode := .bool false }

/-- `AnthropicProvider.complete` (lines 25-41): throws unconditionally,
before performing any work. -/
def anthropicComplete (_request : AICompletionRequest) :
    Except JsError AICompletionResponse :=
  .error anthropicNotImplemented

/-- `AnthropicProvider.streamComplete` (lines 43-70): throws
unconditionally before performing any work; the first component lists
the chunks passed to `onChunk` — none. -/
def anthropicStreamComplete (_request : AICompletionRequest) :
    List AIStreamChunk × Except JsError Unit :=
  ([], .error anthropicNotImplemented)

/-- A RateLimit-kind `AIServiceError` carrying a retry-after hint — a
kind the specification's provider taxonomy marks retryable. -/
def rateLimitError : JsError :=
  .aiService
    { message := "Quota exceeded"
      errType := .str "rate_limit"
      provider := .str "gemini"
      statusCode := .num 429
      retryAfter := .num 1000 }

/-- The first step of an overlapping-acquire interleaving on a bucket
of capacity 1: one `acquire()` at time 0 that gets the only token. -/
def overlapStep1 : RateLimiter := ((RateLimiter.create 1 0).acquireStart 0).1

/-- A second `acquire()` at time 0 finds the bucket empty and suspends;
its head leaves the state unchanged. -/
def overlapStep2 : RateLimiter := (overlapStep1.acquireStart 0).1

/-- A third `acquire()` at time 0 also finds the bucket empty and
suspends. -/
def overlapStep3 : RateLimiter := (overlapStep2.acquireStart 0).1

/-- Both suspended calls wake at their computed wake-up time 60000 and
each runs its unconditional refill-and-debit resumption. -/
def overlapFinal : RateLimiter :=
  (overlapStep3.acquireResume 60000).acquireResume 60000

/-- Whether a thrown error is an InvalidRequest-class error of the
shared taxonomy: an `AIServiceError` whose `type` field holds the
`AIErrorType.INVALID_REQUEST` value 'invalid_request'. -/
def JsError.isInvalidRequestClass : JsError → Bool
  | .aiService e => e.errType == .str "invalid_request"
  | .generic _ => false

/-- Closed-form characterisation of the retry loop from attempt index
`a` with `fuel` retries remaining: some prefix of `k ≤ fuel` attempts
fails with errors the predicate accepts, one backoff delay
`min(base * 2 ^ attempt, maxD)` is slept after each of them, the final
outcome is exactly the `k`-th invocation's result, and the loop stopped
because that invocation succeeded, or exhausted the fuel, or threw an
error the predicate rejects. -/
theorem retryAux_spec (fn : ℕ → Except JsError α) (pred : JsError → Bool)
    (base maxD : ℚ) (fuel a : ℕ) :
    ∃ k ≤ fuel,
      (∀ i < k, ∃ e, fn (a + i) = .error e ∧ pred e = true) ∧
      (retryAux fn pred base maxD fuel a).1 = fn (a + k) ∧
      (retryAux fn pred base maxD fuel a).2 =
        (List.range k).map (fun i => min (base * 2 ^ (a + i)) maxD) ∧
      ((∃ v, fn (a + k) = .ok v) ∨ k = fuel ∨
        (∃ e, fn (a + k) = .error e ∧ pred e = false)) := by
  induction fuel generalizing a with
  | zero =>
    exact ⟨0, le_refl 0, fun i hi => absurd hi (Nat.not_lt_zero i),
      by simp [retryAux], by simp [retryAux], Or.inr (Or.inl rfl)⟩
  | succ fuel ih =>
    cases hfa : fn a with
    | ok v =>
      exact ⟨0, Nat.zero_le _, fun i hi => absurd hi (Nat.not_lt_zero i),
        by simp [retryAux, hfa], by simp [retryAux, hfa],
        Or.inl ⟨v, by simpa using hfa⟩⟩
    | error e =>
      cases hp : pred e with
      | false =>
        exact ⟨0, Nat.zero_le _, fun i hi => absurd hi (Nat.not_lt_zero i),
          by simp [retryAux, hfa, hp], by simp [retryAux, hfa, hp],
          Or.inr (Or.inr ⟨e, by simpa using hfa, hp⟩)⟩
      | true =>
        obtain ⟨k, hk, hpre, hfst, hsnd, hfin⟩ := ih (a + 1)
        refine ⟨k + 1, Nat.succ_le_succ hk, ?_, ?_, ?_, ?_⟩
        · intro i hi
          cases i with
          | zero => exact ⟨e, by simpa using hfa, hp⟩
          | succ j =>
            obtain ⟨e1, he1, hpe1⟩ := hpre j (Nat.lt_of_succ_lt_succ hi)
            exact ⟨e1, by rwa [show a + (j + 1) = a + 1 + j by omega], hpe1⟩
        · rw [show a + (k + 1) = a + 1 + k by omega, ← hfst]
          simp [retryAux, hfa, hp]
        · have hmap : (List.range k).map
              (fun i => min (base * 2 ^ (a + 1 + i)) maxD) =
              (List.range k).map
                ((fun i => min (base * 2 ^ (a + i)) maxD) ∘ Nat.succ) := by
            apply List.map_congr_left
            intro i _
            simp only [Function.comp]
            rw [show a + Nat.succ i = a + 1 + i by omega]
          rw [List.range_succ_eq_map, List.map_cons, List.map_map, ← hmap, ← hsnd]
          simp [retryAux, hfa, hp]
        · rcases hfin with ⟨v, hv⟩ | hke | ⟨e1, he1, hpe1⟩
          · exact Or.inl ⟨v, by rwa [show a + (k + 1) = a + 1 + k by omega]⟩
          · exact Or.inr (Or.inl (by omega))
          · exact Or.inr (Or.inr ⟨e1,
              by rwa [show a + (k + 1) = a + 1 + k by omega], hpe1⟩)

/-- C1: `retryWithBackoff(operation, config)` invokes the operation; on
each failure, when the attempt count has not reached `maxRetries` and
the retryability predicate accepts the error, it sleeps
`min(baseDelay * 2 ^ attempt, maxDelay)` milliseconds and retries;
otherwise it propagates the most recent error unchanged (the final
outcome is the very value the last invocation produced, never wrapped).
Attempts are numbered from 0: some `k ≤ maxRetries` attempts fail
retryably, each followed by its backoff delay, the outcome is the
`k`-th invocation's result — so at most `maxRetries + 1` invocations
occur — and `maxRetries = 0` performs exactly one attempt with no
delay. -/
theorem retryWithBackoff_contract (fn : ℕ → Except JsError α)
    (cfg : RetryConfig) :
    ∃ k ≤ cfg.maxRetries,
      (∀ i < k, ∃ e, fn i = .error e ∧
        cfg.shouldRetry.getD defaultShouldRetry e = true) ∧
      (retryWithBackoff fn cfg).1 = fn k ∧
      (retryWithBackoff fn cfg).2 =
        (List.range k).map (fun i => min (cfg.baseDelay * 2 ^ i) cfg.maxDelay) ∧
      ((∃ v, fn k = .ok v) ∨ k = cfg.maxRetries ∨
        (∃ e, fn k = .error e ∧
          cfg.shouldRetry.getD defaultShouldRetry e = false)) ∧
      (retryWithBackoff fn cfg).2.length + 1 ≤ cfg.maxRetries + 1 ∧
      (cfg.maxRetries = 0 →
        (retryWithBackoff fn cfg).1 = fn 0 ∧ (retryWithBackoff fn cfg).2 = []) := by
  obtain ⟨k, hk, hpre, hfst, hsnd, hfin⟩ :=
    retryAux_spec fn (cfg.shouldRetry.getD defaultShouldRetry) cfg.baseDelay
      cfg.maxDelay cfg.maxRetries 0
  simp only [Nat.zero_add] at hfst hsnd hfin hpre
  refine ⟨k, hk, by simpa using hpre, by simpa [retryWithBackoff] using hfst,
    by simpa [retryWithBackoff] using hsnd, by simpa using hfin, ?_, ?_⟩
  · have : (retryWithBackoff fn cfg).2.length = k := by
      rw [show (retryWithBackoff fn cfg).2 =
        (retryAux fn (cfg.shouldRetry.getD defaultShouldRetry) cfg.baseDelay
          cfg.maxDelay cfg.maxRetries 0).2 from rfl, hsnd]
      simp
    omega
  · intro h0
    have hk0 : k = 0 := by omega
    subst hk0
    exact ⟨by simpa [retryWithBackoff] using hfst, by simp [retryWithBackoff, hsnd]⟩

/-- C2: the default retryability predicate of src/utils/retry.ts reads
`error.retryable`, a property the `AIServiceError` class of
src/types/ai.types.ts does not declare, so the read yields `undefined`
(falsy) and the predicate rejects every error — including a
RateLimit-kind error with a retry-after hint, which the taxonomy marks
retryable and the claim says is accepted.  At the failing input (an
operation always throwing `rateLimitError`, `maxRetries = 3`),
`retryWithBackoff` with no `shouldRetry` supplied propagates the error
on the first attempt with zero delays instead of backing off and
retrying. -/
theorem defaultShouldRetry_rejects_every_error :
    defaultShouldRetry rateLimitError = false ∧
    (∀ e : JsError, defaultShouldRetry e = false) ∧
    retryWithBackoff
      (fun _ => (.error rateLimitError : Except JsError AICompletionResponse))
      { maxRetries := 3, baseDelay := 100 } = (.error rateLimitError, []) := by
  refine ⟨rfl, ?_, rfl⟩
  intro e
  cases e with
  | aiService d => rfl
  | generic m => rfl

/-- Refill never lifts the balance above the bucket capacity: the cap
is applied on every observation. -/
theorem refill_tokens_le_max (s : RateLimiter) (now : ℚ) :
    (s.refill now).tokens ≤ s.maxTokens :=
  min_le_left _ _

/-- Refill is monotone in the observation time when the refill rate is
nonnegative. -/
theorem refill_tokens_mono (s : RateLimiter) (t1 t2 : ℚ)
    (hr : 0 ≤ s.refillRate) (h12 : t1 ≤ t2) :
    (s.refill t1).tokens ≤ (s.refill t2).tokens := by
  unfold RateLimiter.refill
  apply min_le_min (le_refl _)
  have := mul_le_mul_of_nonneg_right (sub_le_sub_right h12 s.lastRefill) hr
  linarith

/-- The capacity and refill rate are constants of the limiter: no
atomic step changes them. -/
theorem reach_constant_fields (s : RateLimiter) (h : s.Reach) :
    ∃ rpm : ℕ, s.maxTokens = rpm ∧ s.refillRate = (rpm : ℚ) / 60000 := by
  induction h with
  | create rpm now => exact ⟨rpm, rfl, rfl⟩
  | start s now hs ih =>
    obtain ⟨rpm, h1, h2⟩ := ih
    refine ⟨rpm, ?_, ?_⟩ <;>
    · unfold RateLimiter.acquireStart
      split <;> simp [RateLimiter.refill, h1, h2]
  | resume s now hs ih =>
    obtain ⟨rpm, h1, h2⟩ := ih
    exact ⟨rpm, by simp [RateLimiter.acquireResume, RateLimiter.refill, h1],
      by simp [RateLimiter.acquireResume, RateLimiter.refill, h2]⟩
  | observe s now hs ih =>
    obtain ⟨rpm, h1, h2⟩ := ih
    exact ⟨rpm, by simp [RateLimiter.refill, h1], by simp [RateLimiter.refill, h2]⟩

/-- The upper half of the invariant holds for every interleaving: no
atomic step of `acquire()` or `getAvailableTokens()` lifts the balance
above `maxTokens`. -/
theorem reach_tokens_le_max (s : RateLimiter) (h : s.Reach) :
    s.tokens ≤ s.maxTokens := by
  induction h with
  | create rpm now => exact le_refl _
  | start s now hs ih =>
    unfold RateLimiter.acquireStart
    split
    · exact le_trans (sub_le_self _ zero_le_one) (min_le_left _ _)
    · exact min_le_left _ _
  | resume s now hs ih =>
    exact le_trans (sub_le_self _ zero_le_one) (min_le_left _ _)
  | observe s now hs ih =>
    exact min_le_left _ _

/-- A sequential `acquire()` is one interleaved head step, possibly
followed by one resumption of the same call. -/
theorem acquireSeq_as_steps (s : RateLimiter) (now : ℚ) :
    s.acquireSeq now = (s.acquireStart now).1 ∨
    ∃ w, s.acquireSeq now = ((s.acquireStart now).1).acquireResume w := by
  unfold RateLimiter.acquireSeq
  rcases hs : s.acquireStart now with ⟨s1, w⟩
  cases w with
  | none => exact Or.inl rfl
  | some wake => exact Or.inr ⟨wake, rfl⟩

/-- Every sequentially reachable state is reachable. -/
theorem seqReach_reach (s : RateLimiter) (h : s.SeqReach) : s.Reach := by
  induction h with
  | create rpm now h1 => exact RateLimiter.Reach.create rpm now
  | acquire s now hs ht ih =>
    rcases acquireSeq_as_steps s now with heq | ⟨w, heq⟩
    · rw [heq]; exact RateLimiter.Reach.start s now ih
    · rw [heq]; exact RateLimiter.Reach.resume _ w (RateLimiter.Reach.start s now ih)
  | observe s now hs ht ih => exact RateLimiter.Reach.observe s now ih

/-- The sequential invariant: under non-overlapping calls the balance
stays nonnegative, the capacity is at least one token and the refill
rate is positive. -/
theorem seqReach_inv (s : RateLimiter) (h : s.SeqReach) :
    0 ≤ s.tokens ∧ 1 ≤ s.maxTokens ∧ 0 < s.refillRate := by
  induction h with
  | create rpm now h1 =>
    have hr : (1 : ℚ) ≤ (rpm : ℚ) := by exact_mod_cast h1
    have h2 : (0 : ℚ) < (rpm : ℚ) := lt_of_lt_of_le one_pos hr
    exact ⟨by simp [RateLimiter.create], by simp [RateLimiter.create, hr],
      div_pos h2 (by norm_num)⟩
  | acquire s now hs ht ih =>
    obtain ⟨h0, hmax, hrate⟩ := ih
    unfold RateLimiter.acquireSeq RateLimiter.acquireStart
    by_cases h1 : 1 ≤ (s.refill now).tokens
    · rw [if_pos h1]
      exact ⟨by simpa using sub_nonneg.mpr h1, hmax, hrate⟩
    · rw [if_neg h1]
      have hne : s.refillRate ≠ 0 := ne_of_gt hrate
      refine ⟨?_, hmax, hrate⟩
      show 0 ≤ ((s.refill now).acquireResume
        (now + (1 - (s.refill now).tokens) / (s.refill now).refillRate)).tokens
      unfold RateLimiter.acquireResume RateLimiter.refill
      set A := s.maxTokens ⊓ (s.tokens + (now - s.lastRefill) * s.refillRate)
        with hA
      rw [add_sub_cancel_left, div_mul_cancel₀ _ hne,
        show A + (1 - A) = 1 by ring, min_eq_right hmax]
      norm_num
  | observe s now hs ht ih =>
    obtain ⟨h0, hmax, hrate⟩ := ih
    refine ⟨?_, hmax, hrate⟩
    unfold RateLimiter.refill
    apply le_min (by linarith)
    have : 0 ≤ (now - s.lastRefill) * s.refillRate :=
      mul_nonneg (sub_nonneg.mpr ht) (le_of_lt hrate)
    linarith

example :
    (retryWithBackoff
      (fun n => if n < 2 then .error (.generic "boom") else .ok 7)
      { maxRetries := 3, baseDelay := 100,
        shouldRetry := some (fun _ => true) }).1 = .ok 7 := by rfl

example :
    (retryWithBackoff
      (fun n => if n < 2 then .error (.generic "boom") else (.ok 7 : Except JsError ℕ))
      { maxRetries := 3, baseDelay := 100,
        shouldRetry := some (fun _ => true) }).2 = [100, 200] := by
  norm_num [retryWithBackoff, retryAux]

/-- C3 counterexample: on a bucket of capacity 1, one immediate
`acquire()` and two overlapping suspended `acquire()` calls that both
wake at their computed wake-up time 60000 form a legitimate
interleaving (each suspension and wake-up time is exhibited), yet the
second resumption's unconditional debit drives the balance to -1 — the
claimed invariant `0 ≤ availableTokens` fails at an observation point
of this interleaving. -/
theorem rateLimiter_overlap_negative_balance :
    ((RateLimiter.create 1 0).acquireStart 0).2 = none ∧
    (overlapStep1.acquireStart 0).2 = some 60000 ∧
    (overlapStep2.acquireStart 0).2 = some 60000 ∧
    overlapFinal.Reach ∧
    overlapFinal.tokens = -1 ∧
    (overlapFinal.getAvailableTokens 60000).1 = -1 ∧
    ¬ 0 ≤ overlapFinal.tokens := by
  refine ⟨?_, ?_, ?_, ?_, ?_, ?_, ?_⟩
  · norm_num [RateLimiter.create, RateLimiter.acquireStart, RateLimiter.refill]
  · norm_num [overlapStep1, RateLimiter.create, RateLimiter.acquireStart,
      RateLimiter.refill]
  · norm_num [overlapStep2, overlapStep1, RateLimiter.create,
      RateLimiter.acquireStart, RateLimiter.refill]
  · exact RateLimiter.Reach.resume _ 60000 (RateLimiter.Reach.resume _ 60000
      (RateLimiter.Reach.start _ 0 (RateLimiter.Reach.start _ 0
        (RateLimiter.Reach.start _ 0 (RateLimiter.Reach.create 1 0)))))
  · norm_num [overlapFinal, overlapStep3, overlapStep2, overlapStep1,
      RateLimiter.create, RateLimiter.acquireStart, RateLimiter.acquireResume,
      RateLimiter.refill]
  · norm_num [overlapFinal, overlapStep3, overlapStep2, overlapStep1,
      RateLimiter.create, RateLimiter.acquireStart, RateLimiter.acquireResume,
      RateLimiter.refill, RateLimiter.getAvailableTokens]
  · norm_num [overlapFinal, overlapStep3, overlapStep2, overlapStep1,
      RateLimiter.create, RateLimiter.acquireStart, RateLimiter.acquireResume,
      RateLimiter.refill]

/-- C3 (amended): for every interleaving of acquire steps and
observations the balance never exceeds `maxTokens`; refill is monotone
in the observation time (for the limiter's nonnegative rate) and
saturates at `maxTokens`; and the full invariant
`0 ≤ availableTokens ≤ maxTokens` holds at every observation point of
every sequential (non-overlapping) interleaving of `acquire()` and
`getAvailableTokens()` on a limiter configured with at least one
request per minute.  Under overlapping `acquire()` calls the
unconditional post-wait debit can drive the balance below zero, as the
counterexample exhibits. -/
theorem rateLimiter_invariant :
    (∀ s : RateLimiter, s.Reach → s.tokens ≤ s.maxTokens) ∧
    (∀ (s : RateLimiter) (t1 t2 : ℚ), 0 ≤ s.refillRate → t1 ≤ t2 →
      (s.refill t1).tokens ≤ (s.refill t2).tokens) ∧
    (∀ (s : RateLimiter) (now : ℚ), (s.refill now).tokens ≤ s.maxTokens) ∧
    (∀ s : RateLimiter, s.SeqReach → 0 ≤ s.tokens ∧ s.tokens ≤ s.maxTokens) ∧
    (∀ (s : RateLimiter) (now : ℚ), s.SeqReach → s.lastRefill ≤ now →
      0 ≤ (s.getAvailableTokens now).1 ∧
      ((s.getAvailableTokens now).1 : ℚ) ≤ s.maxTokens) := by
  refine ⟨fun s h => reach_tokens_le_max s h,
    fun s t1 t2 hr h12 => refill_tokens_mono s t1 t2 hr h12,
    fun s now => refill_tokens_le_max s now,
    fun s h => ⟨(seqReach_inv s h).1, reach_tokens_le_max s (seqReach_reach s h)⟩,
    ?_⟩
  intro s now h hle
  have hobs : (s.refill now).SeqReach := RateLimiter.SeqReach.observe s now h hle
  have h0 : 0 ≤ (s.refill now).tokens := (seqReach_inv _ hobs).1
  have h1 : (s.refill now).tokens ≤ s.maxTokens := refill_tokens_le_max s now
  constructor
  · exact Int.le_floor.mpr (by exact_mod_cast h0)
  · calc ((⌊(s.refill now).tokens⌋ : ℚ)) ≤ (s.refill now).tokens :=
        Int.floor_le _
      _ ≤ s.maxTokens := h1

/-- Refilling at the very timestamp of the last refill moves nothing:
zero elapsed time adds zero tokens, and the cap leaves a balance
already below capacity untouched. -/
theorem refill_noop (s : RateLimiter) (now : ℚ) (hnow : now = s.lastRefill)
    (h : s.tokens ≤ s.maxTokens) : s.refill now = s := by
  unfold RateLimiter.refill
  rw [hnow, sub_self, zero_mul, add_zero, min_eq_right h]

/-- After `k ≤ n` immediate `acquire()` calls at the construction
timestamp, the bucket of a fresh limiter holds exactly `n - k` tokens
and no other field has moved: each call debits exactly one token. -/
theorem acquireN_spec (n : ℕ) (t0 : ℚ) (k : ℕ) (hk : k ≤ n) :
    (RateLimiter.create n t0).acquireN t0 k =
      { tokens := (n : ℚ) - k, lastRefill := t0, maxTokens := n,
        refillRate := (n : ℚ) / 60000 } := by
  induction k with
  | zero => simp [RateLimiter.acquireN, RateLimiter.create]
  | succ k ih =>
    have hk1 : k ≤ n := Nat.le_of_succ_le hk
    have hcast : ((k : ℚ) + 1) ≤ (n : ℚ) := by exact_mod_cast hk
    have h1 : (1 : ℚ) ≤ (n : ℚ) - k := by linarith
    have hle : (n : ℚ) - k ≤ (n : ℚ) := by
      have : (0 : ℚ) ≤ (k : ℚ) := Nat.cast_nonneg k
      linarith
    rw [RateLimiter.acquireN, ih hk1]
    have hnoop : RateLimiter.refill t0
        { tokens := (n : ℚ) - k, lastRefill := t0, maxTokens := n,
          refillRate := (n : ℚ) / 60000 } =
        { tokens := (n : ℚ) - k, lastRefill := t0, maxTokens := n,
          refillRate := (n : ℚ) / 60000 } :=
      refill_noop _ t0 rfl hle
    unfold RateLimiter.acquireStart
    rw [hnoop, if_pos h1]
    push_cast
    ring_nf

/-- C4: a freshly constructed rate limiter with `maxTokens = n` reports
`getAvailableTokens() = n`; issuing `acquire()` calls with no elapsed
time between them decreases the reported balance by exactly one per
call (`n - k` after `k ≤ n` calls, each returning immediately while
`k < n`) until it reaches 0 after the `n`-th call, after which a
further `acquire()` suspends instead of returning immediately. -/
theorem rateLimiter_fresh_and_drain (n : ℕ) (t0 : ℚ) :
    ((RateLimiter.create n t0).getAvailableTokens t0).1 = n ∧
    (∀ k, k ≤ n →
      (((RateLimiter.create n t0).acquireN t0 k).getAvailableTokens t0).1 =
        (n : ℤ) - k) ∧
    (∀ k, k < n →
      (((RateLimiter.create n t0).acquireN t0 k).acquireStart t0).2 = none) ∧
    (((RateLimiter.create n t0).acquireN t0 n).getAvailableTokens t0).1 = 0 ∧
    (((RateLimiter.create n t0).acquireN t0 n).acquireStart t0).2 ≠ none := by
  have havail : ∀ k, k ≤ n →
      (((RateLimiter.create n t0).acquireN t0 k).getAvailableTokens t0).1 =
        (n : ℤ) - k := by
    intro k hk
    rw [RateLimiter.getAvailableTokens, acquireN_spec n t0 k hk]
    have hle : (n : ℚ) - k ≤ (n : ℚ) := by
      have : (0 : ℚ) ≤ (k : ℚ) := Nat.cast_nonneg k
      linarith
    rw [refill_noop _ t0 rfl hle]
    show ⌊(n : ℚ) - (k : ℚ)⌋ = (n : ℤ) - k
    rw [show ((n : ℚ) - (k : ℚ)) = (((n : ℤ) - (k : ℤ) : ℤ) : ℚ) by push_cast; ring]
    exact Int.floor_intCast _
  refine ⟨?_, havail, ?_, ?_, ?_⟩
  · have := havail 0 (Nat.zero_le n)
    simpa [RateLimiter.acquireN] using this
  · intro k hk
    have hcast : ((k : ℚ) + 1) ≤ (n : ℚ) := by exact_mod_cast hk
    have h1 : (1 : ℚ) ≤ (n : ℚ) - k := by linarith
    have hle : (n : ℚ) - k ≤ (n : ℚ) := by
      have : (0 : ℚ) ≤ (k : ℚ) := Nat.cast_nonneg k
      linarith
    rw [acquireN_spec n t0 k (Nat.le_of_lt hk)]
    unfold RateLimiter.acquireStart
    rw [refill_noop _ t0 rfl hle, if_pos h1]
  · have := havail n (le_refl n)
    simpa using this
  · rw [acquireN_spec n t0 n (le_refl n)]
    unfold RateLimiter.acquireStart
    have hle : (n : ℚ) - n ≤ (n : ℚ) := by
      have : (0 : ℚ) ≤ (n : ℚ) := Nat.cast_nonneg n
      linarith
    rw [refill_noop _ t0 rfl hle]
    rw [if_neg (by norm_num)]
    simp

/-- C5 counterexample: with `maxTokens = 60` (one token per second) and
59 tokens consumed, one full token remains; advancing the clock 500 ms
refills 0.5, and `getAvailableTokens()` reports `⌊1.5⌋ = 1`, not 0 as
the claim states for this input. -/
theorem rateLimiter_floor_counterexample :
    (((RateLimiter.create 60 0).acquireN 0 59).getAvailableTokens 500).1 = 1 ∧
    (((RateLimiter.create 60 0).acquireN 0 59).getAvailableTokens 500).1 ≠ 0 := by
  rw [acquireN_spec 60 0 59 (by norm_num)]
  norm_num [RateLimiter.getAvailableTokens, RateLimiter.refill]

/-- C5 (amended): refill adds `elapsedMillis × refillRate` capped at
`maxTokens`, and `getAvailableTokens()` floors fractional balances:
with `maxTokens = 60` (one token per second), after exhausting all 60
tokens and advancing the clock 30 000 ms the report is 30; advancing
60 000 ms from a 30-remaining state caps at 60 and never exceeds
`maxTokens`; with all 60 tokens consumed, advancing 500 ms yields 0
(0.5 floored to 0), while with only 59 consumed it yields 1 (the
remaining full token plus 0.5 refilled, 1.5 floored to 1). -/
theorem rateLimiter_refill_and_floor :
    (((RateLimiter.create 60 0).acquireN 0 60).getAvailableTokens 30000).1 = 30 ∧
    (((RateLimiter.create 60 0).acquireN 0 30).getAvailableTokens 60000).1 = 60 ∧
    (∀ now : ℚ,
      (((RateLimiter.create 60 0).acquireN 0 30).refill now).tokens ≤ 60) ∧
    (((RateLimiter.create 60 0).acquireN 0 60).getAvailableTokens 500).1 = 0 ∧
    (((RateLimiter.create 60 0).acquireN 0 59).getAvailableTokens 500).1 = 1 := by
  refine ⟨?_, ?_, ?_, ?_, ?_⟩
  · rw [acquireN_spec 60 0 60 (by norm_num)]
    norm_num [RateLimiter.getAvailableTokens, RateLimiter.refill]
  · rw [acquireN_spec 60 0 30 (by norm_num)]
    norm_num [RateLimiter.getAvailableTokens, RateLimiter.refill]
  · intro now
    rw [acquireN_spec 60 0 30 (by norm_num)]
    exact refill_tokens_le_max _ now
  · rw [acquireN_spec 60 0 60 (by norm_num)]
    norm_num [RateLimiter.getAvailableTokens, RateLimiter.refill]
  · rw [acquireN_spec 60 0 59 (by norm_num)]
    norm_num [RateLimiter.getAvailableTokens, RateLimiter.refill]

/-- Folding string concatenation from an arbitrary accumulator factors
the accumulator out to the left. -/
theorem foldl_append_acc (l : List String) :
    ∀ acc : String, l.foldl (· ++ ·) acc = acc ++ l.foldl (· ++ ·) "" := by
  induction l with
  | nil => intro acc; simp [String.append_empty]
  | cons a l ih =>
    intro acc
    simp only [List.foldl_cons]
    rw [ih (acc ++ a), ih ("" ++ a), String.empty_append, String.append_assoc]

/-- Joining a nonempty list of strings prepends its head to the join of
its tail. -/
theorem string_join_cons (a : String) (l : List String) :
    String.join (a :: l) = a ++ String.join l := by
  show List.foldl (· ++ ·) ("" ++ a) l = a ++ List.foldl (· ++ ·) "" l
  rw [String.empty_append]
  exact foldl_append_acc l a

/-- Processing a run of non-terminal chunks appends their contents in
emission order and leaves the usage accumulator untouched. -/
theorem askStreaming_nonterminal (cs : List AIStreamChunk) (acc : String)
    (t : ServiceTokenUsage) (h : ∀ c ∈ cs, c.isComplete = false) :
    cs.foldl (fun a c => (askChunkText a.1 c, streamChunkTrack a.2 c)) (acc, t) =
      (acc ++ String.join (cs.map (fun c => c.content)), t) := by
  induction cs generalizing acc with
  | nil => simp [show String.join [] = "" from rfl, String.append_empty]
  | cons c cs ih =>
    have hc := h c (List.mem_cons_self c cs)
    have hcs : ∀ x ∈ cs, x.isComplete = false := fun x hx =>
      h x (List.mem_cons_of_mem c hx)
    simp only [List.foldl_cons]
    rw [show askChunkText acc c = acc ++ c.content by simp [askChunkText, hc],
      show streamChunkTrack t c = t by simp [streamChunkTrack, hc]]
    rw [ih (acc ++ c.content) hcs, List.map_cons, string_join_cons,
      String.append_assoc]

/-- C6: for a provider adapter that emits any number of non-terminal
chunks followed by exactly one terminal chunk carrying usage, the
streaming path records the terminal chunk's usage into the
orchestrator's accumulator exactly once (one `updateTokenUsage`
application) and `ask(..., {stream: true})` returns exactly the
concatenation, in emission order, of the non-terminal contents,
excluding the terminal chunk's content. -/
theorem streaming_usage_once (cs : List AIStreamChunk) (u : TokenUsage)
    (term : AIStreamChunk) (t : ServiceTokenUsage)
    (hcs : ∀ c ∈ cs, c.isComplete = false)
    (hterm : term.isComplete = true) (hu : term.usage = some u) :
    askStreaming (cs ++ [term]) t =
      (String.join (cs.map (fun c => c.content)),
        updateTokenUsage t (some u)) := by
  unfold askStreaming
  rw [List.foldl_append, askStreaming_nonterminal cs "" t hcs]
  simp [askChunkText, streamChunkTrack, hterm, hu, String.empty_append]

/-- C6 witness: three non-terminal fragments and one terminal chunk
carrying usage {10, 5, 15}: the assembled text is the three fragments
in order and the accumulator is updated exactly once. -/
theorem streaming_usage_once_witness :
    askStreaming
      [⟨"Hello ", false, none⟩, ⟨"wor", false, none⟩, ⟨"ld!", false, none⟩,
        ⟨"done", true, some ⟨10, 5, 15, none⟩⟩]
      ⟨0, 0, 0, 0, 0⟩ =
      ("Hello world!", updateTokenUsage ⟨0, 0, 0, 0, 0⟩ (some ⟨10, 5, 15, none⟩)) := by
  have h := streaming_usage_once
    [⟨"Hello ", false, none⟩, ⟨"wor", false, none⟩, ⟨"ld!", false, none⟩]
    ⟨10, 5, 15, none⟩ ⟨"done", true, some ⟨10, 5, 15, none⟩⟩ ⟨0, 0, 0, 0, 0⟩
    (by decide) rfl rfl
  simpa using h

/-- C7 counterexample: constructing the orchestrator with the
unrecognized provider id "openai" throws the plain `Error`
`Unknown provider: openai`, which is not an `AIServiceError` and in
particular not an InvalidRequest-class error of the taxonomy, contrary
to the claim. -/
theorem createProvider_unknown_counterexample :
    createProvider "openai" = .error (.generic "Unknown provider: openai") ∧
    (JsError.generic "Unknown provider: openai").isInvalidRequestClass = false := by
  exact ⟨rfl, rfl⟩

/-- C7 (amended): constructing an Orchestrator with an unrecognized
provider id fails immediately at construction time — `createProvider`
throws before any Provider Adapter value exists, so none is
constructed — but with the plain `Error` `Unknown provider: <id>`,
which is not an InvalidRequest-class `AIServiceError` of the
taxonomy. -/
theorem createProvider_unknown_fails_fast (name : String)
    (h1 : name ≠ "anthropic") (h2 : name ≠ "gemini") :
    createProvider name = .error (.generic ("Unknown provider: " ++ name)) ∧
    (JsError.generic ("Unknown provider: " ++ name)).isInvalidRequestClass
      = false ∧
    ∀ p : ProviderKind, createProvider name ≠ .ok p := by
  refine ⟨?_, rfl, ?_⟩
  · unfold createProvider
    rw [if_neg h1, if_neg h2]
  · intro p hp
    unfold createProvider at hp
    rw [if_neg h1, if_neg h2] at hp
    exact Except.noConfusion hp

/-- C7 witness: the amended statement at the concrete unrecognized
provider id "openai". -/
theorem createProvider_unknown_fails_fast_witness :
    createProvider "openai" = .error (.generic "Unknown provider: openai") ∧
    (JsError.generic "Unknown provider: openai").isInvalidRequestClass
      = false ∧
    ∀ p : ProviderKind, createProvider "openai" ≠ .ok p :=
  createProvider_unknown_fails_fast "openai" (by decide) (by decide)

/-- C8: Token Usage Tracker accumulation is component-wise additive:
for every provider, tracking {prompt: 10, completion: 5, total: 15}
twice on a fresh tracker yields accumulated usage {20, 10, 30} with
request count 2; `getTotalUsage()` equals the component-wise sum of the
per-provider totals (shown both in closed form over the two known
providers and on a fresh tracker fed one usage per provider); and
`reset()` zeroes every provider's accumulators and request counts. -/
theorem tokenUsageTracker_additive :
    (∀ (t0 : ℚ) (p : AIProviderId),
      TokenUsageTracker.getUsage p
        (TokenUsageTracker.track p ⟨10, 5, 15, none⟩
          (TokenUsageTracker.track p ⟨10, 5, 15, none⟩
            (TokenUsageTracker.create t0))) = ⟨20, 10, 30, some 0⟩ ∧
      TokenUsageTracker.getRequestCount p
        (TokenUsageTracker.track p ⟨10, 5, 15, none⟩
          (TokenUsageTracker.track p ⟨10, 5, 15, none⟩
            (TokenUsageTracker.create t0))) = 2) ∧
    (∀ tr : TokenUsageTracker, tr.getTotalUsage =
      { promptTokens := (tr.usage .gemini).promptTokens
          + (tr.usage .anthropic).promptTokens
        completionTokens := (tr.usage .gemini).completionTokens
          + (tr.usage .anthropic).completionTokens
        totalTokens := (tr.usage .gemini).totalTokens
          + (tr.usage .anthropic).totalTokens
        estimatedCost := some ((tr.usage .gemini).estimatedCost.getD 0
          + (tr.usage .anthropic).estimatedCost.getD 0) }) ∧
    (∀ (t0 : ℚ) (u1 u2 : TokenUsage),
      (TokenUsageTracker.track .anthropic u2
        (TokenUsageTracker.track .gemini u1
          (TokenUsageTracker.create t0))).getTotalUsage =
        { promptTokens := u1.promptTokens + u2.promptTokens
          completionTokens := u1.completionTokens + u2.completionTokens
          totalTokens := u1.totalTokens + u2.totalTokens
          estimatedCost := some (u1.estimatedCost.getD 0
            + u2.estimatedCost.getD 0) }) ∧
    (∀ (tr : TokenUsageTracker) (t1 : ℚ) (p : AIProviderId),
      (tr.reset t1).usage p = TokenUsage.zero ∧
      (tr.reset t1).requestCount p = 0) := by
  refine ⟨?_, ?_, ?_, ?_⟩
  · intro t0 p
    constructor
    · simp [TokenUsageTracker.getUsage, TokenUsageTracker.track,
        TokenUsageTracker.create, TokenUsage.zero]
      norm_num
    · simp [TokenUsageTracker.getRequestCount, TokenUsageTracker.track,
        TokenUsageTracker.create]
  · intro tr
    simp [TokenUsageTracker.getTotalUsage, AIProviderId.all, TokenUsage.addTo,
      TokenUsage.zero]
  · intro t0 u1 u2
    simp [TokenUsageTracker.getTotalUsage, AIProviderId.all, TokenUsage.addTo,
      TokenUsage.zero, TokenUsageTracker.track, TokenUsageTracker.create]
  · intro tr t1 p
    exact ⟨rfl, rfl⟩

/-- C9: both `AnthropicProvider.complete` and
`AnthropicProvider.streamComplete` unconditionally throw the
`AIServiceError` with message 'Anthropic provider not yet implemented'
before performing any work, `streamComplete` never invokes the
`onChunk` callback (it emits no chunk), and an orchestrator configured
with the anthropic provider constructs successfully but every
completion call fails, propagating that same error on the first
attempt (the default retryability predicate rejects it). -/
theorem anthropicProvider_not_implemented :
    (∀ request : AICompletionRequest,
      anthropicComplete request = .error anthropicNotImplemented) ∧
    (∀ request : AICompletionRequest,
      anthropicStreamComplete request = ([], .error anthropicNotImplemented)) ∧
    (∃ d : AIServiceErrorData, anthropicNotImplemented = .aiService d ∧
      d.message = "Anthropic provider not yet implemented") ∧
    createProvider "anthropic" = .ok .anthropic ∧
    (∀ (request : AICompletionRequest) (maxRetries : ℕ) (retryDelay : ℚ)
        (t : ServiceTokenUsage),
      serviceComplete (fun _ => anthropicComplete request)
          maxRetries retryDelay t =
        (.error anthropicNotImplemented, t, [])) := by
  refine ⟨fun _ => rfl, fun _ => rfl, ⟨_, rfl, rfl⟩, rfl, ?_⟩
  intro request maxRetries retryDelay t
  cases maxRetries with
  | zero =>
    simp [serviceComplete, retryWithBackoff, retryAux, anthropicComplete]
  | succ m =>
    simp [serviceComplete, retryWithBackoff, retryAux, anthropicComplete,
      defaultShouldRetry, anthropicNotImplemented, AIServiceErrorData.getProp,
      JsVal.truthy]

/-- C10: a successful `complete` call whose response carries no usage
still increments the orchestrator's `requestCount` accumulator by
exactly one while the `promptTokens`, `completionTokens` and
`totalTokens` accumulators stay unchanged; when usage is present, all
four fields are updated. -/
theorem complete_usage_frame (t : ServiceTokenUsage)
    (resp : AICompletionResponse) (maxRetries : ℕ) (retryDelay : ℚ) :
    (serviceComplete (fun _ => .ok resp) maxRetries retryDelay t =
      (.ok resp, updateTokenUsage t resp.usage, [])) ∧
    (resp.usage = none →
      updateTokenUsage t resp.usage =
        { t with requestCount := t.requestCount + 1 }) ∧
    (∀ u, resp.usage = some u →
      updateTokenUsage t resp.usage =
        { promptTokens := t.promptTokens + u.promptTokens
          completionTokens := t.completionTokens + u.completionTokens
          totalTokens := t.totalTokens + u.totalTokens
          requestCount := t.requestCount + 1
          lastReset := t.lastReset }) := by
  refine ⟨?_, ?_, ?_⟩
  · cases maxRetries with
    | zero => simp [serviceComplete, retryWithBackoff, retryAux]
    | succ m => simp [serviceComplete, retryWithBackoff, retryAux]
  · intro h
    simp [updateTokenUsage, h]
  · intro u h
    simp [updateTokenUsage, h]
